import Mathlib

/-!
Verification of the preview-session manager, diagnostic mapper and renderer
client of the Go Template Studio VS Code extension.

The definitions below are a shallow embedding of the TypeScript sources
`src/services/previewManager.ts`, `src/services/diagnosticService.ts` and the
renderer client (`RendererService`).  Machine strings are Lean `String`s,
JavaScript `undefined` is `Option.none`, JS `Map`s and the VS Code
`DiagnosticCollection` are association lists keyed by URI strings, and the
platform flag (`process.platform === 'win32'`) is an explicit boolean
parameter.
-/

namespace GoTemplateStudio

/-! ## URIs and platform-sensitive comparison -/

/-- A `vscode.Uri` as the embedded code observes it: its filesystem path
(`fsPath`) and its canonical string form (`toString()`). -/
structure Uri where
  fsPath : String
  uriString : String
deriving DecidableEq, Repr

/-- `vscode.Uri.file(p)`: a file URI for path `p`. -/
def Uri.file (p : String) : Uri :=
  { fsPath := p, uriString := "file://" ++ p }

/-- JS `String.prototype.toLowerCase()`, modelled for the ASCII range the
embedded paths and extensions use. -/
def toLowerCase (s : String) : String :=
  String.mk (s.toList.map Char.toLower)

/-- `PreviewManager.handleUriCase` / `DiagnosticService.normalizePath`:
lower-case on win32, identity elsewhere. -/
def normalizePath (win32 : Bool) (v : String) : String :=
  if win32 then toLowerCase v else v

/-- `DiagnosticService.matchesUri`: compare a candidate URI's `fsPath` with a
raw file hint, path-normalized. -/
def matchesUri (win32 : Bool) (candidate : Uri) (fileHint : String) : Bool :=
  normalizePath win32 candidate.fsPath == normalizePath win32 fileHint

/-- `DiagnosticService.isSameUri`: compare the `toString()` forms,
path-normalized. -/
def isSameUri (win32 : Bool) (l r : Uri) : Bool :=
  normalizePath win32 l.uriString == normalizePath win32 r.uriString

/-- `PreviewManager.isSameResource`: compare the `fsPath` forms,
case-normalized. -/
def isSameResource (win32 : Bool) (l r : Uri) : Bool :=
  normalizePath win32 l.fsPath == normalizePath win32 r.fsPath

/-! ## Render diagnostics (engine-reported) and preview diagnostics (mapped) -/

inductive Severity where
  | error
  | warning
deriving DecidableEq, Repr

/-- `RenderDiagnostic` from `rendererService.ts`: raw engine-reported
diagnostic.  `line`/`column` are 1-based and may be absent or non-positive. -/
structure RenderDiagnostic where
  message : String
  severity : Severity
  file : Option String := none
  line : Option Int := none
  column : Option Int := none
deriving DecidableEq, Repr

inductive DiagSource where
  | template
  | context
deriving DecidableEq, Repr

/-- `PreviewDiagnostic` from `diagnosticService.ts`: mapped diagnostic with
0-based positions. -/
structure PreviewDiagnostic where
  message : String
  severity : Severity
  line : Option Nat
  character : Option Nat
  source : DiagSource
deriving DecidableEq, Repr

/-- A `vscode.Range` as built by `normalizeDiagnostic` (start/end line and
character). -/
structure VsRange where
  startLine : Nat
  startCharacter : Nat
  endLine : Nat
  endCharacter : Nat
deriving DecidableEq, Repr

/-- `Number.MAX_SAFE_INTEGER`. -/
def maxSafeInteger : Nat := 9007199254740991

/-- A `vscode.Diagnostic` entry as stored in the diagnostic collection. -/
structure VsDiagnostic where
  range : VsRange
  message : String
  severity : Severity
deriving DecidableEq, Repr

/-! ## The message-prefix location regex

`DiagnosticService.parseTemplateLocation` matches the JavaScript regex
`/^template:\s+[^:]+:(\d+)(?::(\d+))?:\s*(.*)$/` against the message.  The
functions below implement exactly the backtracking semantics of that regex:
`\s+` then `[^:]+` must partition the text between `"template:"` and the
first following colon (so that text needs length at least two and a leading
whitespace character); `(\d+)` captures the maximal digit run after that
colon; the optional `(?::(\d+))?` group is tried greedily and abandoned when
the mandatory colon after it cannot match; `\s*` greedily eats whitespace
(including line terminators) and `(.*)$` requires the remainder to contain no
line terminator, capturing it as group 3. -/

/-- JavaScript `\d`. -/
def isJsDigit (c : Char) : Bool :=
  48 ≤ c.toNat && c.toNat ≤ 57

/-- JavaScript `\s` (WhiteSpace plus LineTerminator code points). -/
def isJsSpace (c : Char) : Bool :=
  let n := c.toNat
  n == 32 || n == 9 || n == 10 || n == 11 || n == 12 || n == 13 ||
    n == 160 || n == 5760 || (8192 ≤ n && n ≤ 8202) || n == 8232 ||
    n == 8233 || n == 8239 || n == 8287 || n == 12288 || n == 65279

/-- JavaScript line terminators, which `.` does not match. -/
def isLineTerminator (c : Char) : Bool :=
  let n := c.toNat
  n == 10 || n == 13 || n == 8232 || n == 8233

/-- Strip an exact literal from the front of a character list. -/
def dropLiteral : List Char → List Char → Option (List Char)
  | [], cs => some cs
  | _ :: _, [] => none
  | l :: ls, c :: cs => if c = l then dropLiteral ls cs else none

/-- Split a character list at its first colon: the part before (which
therefore contains no colon) and the part after. -/
def breakAtColon : List Char → Option (List Char × List Char)
  | [] => none
  | c :: rest =>
    if c = ':' then some ([], rest)
    else (breakAtColon rest).map (fun p => (c :: p.1, p.2))

/-- `parseInt(digits, 10)` on a digit run. -/
def digitsToNat (ds : List Char) : Nat :=
  ds.foldl (fun a c => a * 10 + (c.toNat - 48)) 0

/-- The three capture groups of the location regex: the line digits, the
optional column digits, and the remaining-message text.  `none` when the
regex does not match. -/
def templateLocCaptures (msg : String) : Option (List Char × Option (List Char) × List Char) :=
  match dropLiteral "template:".toList msg.toList with
  | none => none
  | some t =>
    match breakAtColon t with
    | none => none
    | some (u, afterName) =>
      let headIsSpace := match u with
        | c :: _ => isJsSpace c
        | [] => false
      if 2 ≤ u.length && headIsSpace then
        let d1 := afterName.takeWhile isJsDigit
        let r1 := afterName.dropWhile isJsDigit
        if d1.isEmpty then none
        else
          match r1 with
          | ':' :: r2 =>
            let d2 := r2.takeWhile isJsDigit
            let r3 := r2.dropWhile isJsDigit
            let fallback :=
              let rest := r2.dropWhile isJsSpace
              if rest.any isLineTerminator then none else some (d1, none, rest)
            match d2, r3 with
            | _ :: _, ':' :: r4 =>
              let rest := r4.dropWhile isJsSpace
              if rest.any isLineTerminator then fallback else some (d1, some d2, rest)
            | _, _ => fallback
          | _ => none
      else none

/-- Result record of `DiagnosticService.parseTemplateLocation`. -/
structure ParsedLocation where
  line : Nat
  column : Option Nat
  message : String
deriving DecidableEq, Repr

/-- `DiagnosticService.parseTemplateLocation`: run the regex, `parseInt` the
digit groups (never `NaN` on a captured digit run), drop a zero column (it is
falsy in JS), and fall back to the whole message when the remaining text is
empty (`remaining || message`). -/
def parseTemplateLocation (message : String) : Option ParsedLocation :=
  match templateLocCaptures message with
  | none => none
  | some (d1, d2, rest) =>
    let column : Option Nat := match d2 with
      | some ds => if digitsToNat ds = 0 then none else some (digitsToNat ds)
      | none => none
    some
      { line := digitsToNat d1
        column := column
        message := if rest.isEmpty then message else String.mk rest }

/-- Result record of `DiagnosticService.normalizeDiagnostic`. -/
structure NormalizedDiagnostic where
  message : String
  range : VsRange
  line : Option Nat
  character : Option Nat
deriving DecidableEq, Repr

/-- `const zeroBasedLine = line && line > 0 ? line - 1 : 0` (and the same
for the column). -/
def zeroBasedOf (o : Option Int) : Nat :=
  match o with
  | some v => if 0 < v then (v - 1).toNat else 0
  | none => 0

/-- `line && line > 0 ? zeroBasedLine : undefined` (and the same for the
column/character). -/
def positionFieldOf (o : Option Int) : Option Nat :=
  match o with
  | some v => if 0 < v then some (zeroBasedOf o) else none
  | none => none

/-- `DiagnosticService.normalizeDiagnostic`: use the structured 1-based
line/column when the line is present and positive, otherwise try to parse a
location out of the message; convert to 0-based; a non-positive line or
column maps to an absent field; the range spans the whole resolved line. -/
def normalizeDiagnostic (d : RenderDiagnostic) : NormalizedDiagnostic :=
  let parseNeeded : Bool := match d.line with
    | none => true
    | some v => v ≤ 0
  let parsed := if parseNeeded then parseTemplateLocation d.message else none
  let m1 : String := match parsed with
    | some p => p.message
    | none => d.message
  let l1 : Option Int := match parsed with
    | some p => some (Int.ofNat p.line)
    | none => d.line
  let c1 : Option Int := match parsed with
    | some p => p.column.map Int.ofNat
    | none => d.column
  { message := m1
    range :=
      { startLine := zeroBasedOf l1, startCharacter := 0
        endLine := zeroBasedOf l1, endCharacter := maxSafeInteger }
    line := positionFieldOf l1
    character := positionFieldOf c1 }

/-! ## Association lists: JS `Map` and the VS Code `DiagnosticCollection`

A JavaScript `Map` keeps at most one entry per key; `set` updates an existing
entry in place or appends a new one, `delete` removes the entry, `get`
returns the value or `undefined`.  The `vscode.DiagnosticCollection` used by
the diagnostic service behaves the same way, keyed by document URI (we key by
the URI's string form, which is how the source addresses it: it stores under
`targetUri.toString()` keys and re-parses them with `vscode.Uri.parse`). -/

/-- `map.get(k)`. -/
def assocGet {α : Type} (m : List (String × α)) (k : String) : Option α :=
  (m.find? (fun p => p.1 == k)).map Prod.snd

/-- `map.set(k, v)`. -/
def assocSet {α : Type} : List (String × α) → String → α → List (String × α)
  | [], k, v => [(k, v)]
  | p :: rest, k, v =>
    if p.1 == k then (k, v) :: rest else p :: assocSet rest k v

/-- `map.delete(k)`. -/
def assocDelete {α : Type} (m : List (String × α)) (k : String) : List (String × α) :=
  m.filter (fun p => !(p.1 == k))

/-- The diagnostics index keyed by document URI string. -/
abbrev DiagnosticCollection := List (String × List VsDiagnostic)

/-- The loop-local `entries` map of `applyDiagnostics`. -/
abbrev DiagEntries := List (String × List VsDiagnostic)

/-! ## Resolving a diagnostic's target document -/

/-- `DiagnosticService.resolveTargetUri`: a truthy file hint is compared
against the template and the context documents; on no match it is treated as
an arbitrary file reference; with no hint the template document is the
default.  (An empty-string hint is falsy in JS and behaves like no hint;
`vscode.Uri.file` does not fail on the inputs we model.) -/
def resolveTargetUri (win32 : Bool) (templateUri : Uri) (contextUri : Option Uri)
    (fileHint : Option String) : Uri :=
  match fileHint with
  | some h =>
    if h = "" then templateUri
    else if matchesUri win32 templateUri h then templateUri
    else
      match contextUri with
      | some cu => if matchesUri win32 cu h then cu else Uri.file h
      | none => Uri.file h
  | none => templateUri

/-- The collection key a diagnostic is stored under. -/
def resolveKey (win32 : Bool) (templateUri : Uri) (contextUri : Option Uri)
    (d : RenderDiagnostic) : String :=
  (resolveTargetUri win32 templateUri contextUri d.file).uriString

/-- The `PreviewDiagnostic` built for one `RenderDiagnostic` by the loop body
of `applyDiagnostics`: normalized position and message, and `source` set to
`template` when the resolved target URI is the template document's URI, else
`context`. -/
def previewOf (win32 : Bool) (templateUri : Uri) (contextUri : Option Uri)
    (d : RenderDiagnostic) : PreviewDiagnostic :=
  let target := resolveTargetUri win32 templateUri contextUri d.file
  let n := normalizeDiagnostic d
  { message := n.message
    severity := d.severity
    line := n.line
    character := n.character
    source := if isSameUri win32 target templateUri then .template else .context }

/-- The `vscode.Diagnostic` built for one `RenderDiagnostic` by the loop body
of `applyDiagnostics`. -/
def vsDiagnosticOf (d : RenderDiagnostic) : VsDiagnostic :=
  let n := normalizeDiagnostic d
  { range := n.range, message := n.message, severity := d.severity }

/-- One iteration of the `for (const diagnostic of diagnostics)` loop of
`applyDiagnostics`: append the mapped preview diagnostic and push the VS Code
diagnostic onto the entry for its resolved key. -/
def diagStep (win32 : Bool) (templateUri : Uri) (contextUri : Option Uri)
    (acc : List PreviewDiagnostic × DiagEntries) (d : RenderDiagnostic) :
    List PreviewDiagnostic × DiagEntries :=
  let key := resolveKey win32 templateUri contextUri d
  let current := (assocGet acc.2 key).getD []
  (acc.1 ++ [previewOf win32 templateUri contextUri d],
    assocSet acc.2 key (current ++ [vsDiagnosticOf d]))

/-- The `entries` map after the loop of `applyDiagnostics`. -/
def entriesOf (win32 : Bool) (templateUri : Uri) (contextUri : Option Uri)
    (diagnostics : List RenderDiagnostic) : DiagEntries :=
  (diagnostics.foldl (diagStep win32 templateUri contextUri) ([], [])).2

/-- `DiagnosticService.applyDiagnostics`: map every render diagnostic to a
preview diagnostic, group the VS Code diagnostics by resolved target URI,
then update the diagnostic collection: an empty input list deletes the
template and context entries; otherwise every grouped entry is stored and the
template/context entries that received no diagnostics are deleted.  Returns
the preview diagnostics and the updated collection. -/
def applyDiagnostics (win32 : Bool) (templateUri : Uri) (contextUri : Option Uri)
    (diagnostics : List RenderDiagnostic) (collection : DiagnosticCollection) :
    List PreviewDiagnostic × DiagnosticCollection :=
  let folded := diagnostics.foldl (diagStep win32 templateUri contextUri) ([], [])
  let previewDiagnostics := folded.1
  let entries := folded.2
  if diagnostics.isEmpty then
    let c1 := assocDelete collection templateUri.uriString
    let c2 := match contextUri with
      | some cu => assocDelete c1 cu.uriString
      | none => c1
    (previewDiagnostics, c2)
  else
    let afterSet := entries.foldl (fun acc p => assocSet acc p.1 p.2) collection
    let c1 :=
      if (assocGet entries templateUri.uriString).isSome then afterSet
      else assocDelete afterSet templateUri.uriString
    let c2 := match contextUri with
      | some cu =>
        if (assocGet entries cu.uriString).isSome then c1
        else assocDelete c1 cu.uriString
      | none => c1
    (previewDiagnostics, c2)

/-! ## Render results and the preview session state -/

/-- `RenderResult` from the renderer client: rendered text, raw diagnostics,
duration, and an optional engine-level error message. -/
structure RenderResult where
  rendered : String
  diagnostics : List RenderDiagnostic
  durationMs : Nat
  errorMessage : Option String := none
deriving DecidableEq, Repr

/-- JS truthiness of the optional `errorMessage` string (an empty string is
falsy), as tested by `if (!result.errorMessage)` and
`Boolean(result.errorMessage && ...)`. -/
def errTruthy : Option String → Bool
  | none => false
  | some s => s != ""

/-- The last successful render cached on a session
(`session.lastSuccessful`). -/
structure LastSuccessful where
  rendered : String
  isHtml : Bool
deriving DecidableEq, Repr

/-- `PreviewSession` from `previewManager.ts`.  The webview panel, the
message subscription and the `initialized` flag are pure host-UI wiring and
are not part of the render-pipeline state modelled here; the debounce timer
is modelled separately (see `DebounceState`). -/
structure PreviewSession where
  templateKey : String
  templateUri : Uri
  contextUri : Option Uri
  languageId : String
  templateSignature : Option String := none
  contextSignature : Option String := none
  lastSuccessful : Option LastSuccessful := none
deriving DecidableEq, Repr

/-- Node's `path.extname`: the extension of the basename, empty for a
leading-dot-only or dot-less basename. -/
def extname (p : String) : String :=
  let base := (p.toList.reverse.takeWhile (fun c => c != '/')).reverse
  let tail := base.reverse.takeWhile (fun c => c != '.')
  if tail.length = base.length then ""
  else if base.length - tail.length - 1 = 0 then ""
  else String.mk ('.' :: tail.reverse)

/-- `PreviewManager.isHtmlTemplate`: `.html`/`.htm` extension, or an
`html`/`gotemplate` language id. -/
def isHtmlTemplate (session : PreviewSession) : Bool :=
  let e := toLowerCase (extname session.templateUri.fsPath)
  e == ".html" || e == ".htm" ||
    session.languageId == "html" || session.languageId == "gotemplate"

/-- The payload of a `{type: 'render'}` message posted to the webview. -/
structure PreviewPayload where
  rendered : String
  diagnostics : List PreviewDiagnostic
  isHtml : Bool
  durationMs : Nat
  isStale : Bool
  errorMessage : Option String
deriving DecidableEq, Repr

/-- `PreviewManager.buildPreviewPayload`: fall back to the cached last
successful output exactly when the result carries a (truthy) error message
and a last successful output exists; the staleness flag records that
choice. -/
def buildPreviewPayload (session : PreviewSession) (result : RenderResult)
    (diagnostics : List PreviewDiagnostic) (isHtml : Bool) : PreviewPayload :=
  let useFallback := errTruthy result.errorMessage && session.lastSuccessful.isSome
  let rendered := if useFallback then
      (match session.lastSuccessful with
        | some f => f.rendered
        | none => "")
    else result.rendered
  let payloadIsHtml := if useFallback then
      (match session.lastSuccessful with
        | some f => f.isHtml
        | none => isHtml)
    else isHtml
  { rendered := rendered
    diagnostics := diagnostics
    isHtml := payloadIsHtml
    durationMs := result.durationMs
    isStale := useFallback
    errorMessage := result.errorMessage }

/-- Outcome of the awaited `rendererService.render` call: either a result or
a thrown exception (process launch failure, non-zero exit, malformed
payload). -/
inductive RenderCall where
  | ok (result : RenderResult)
  | exn (message : String)
deriving DecidableEq, Repr

/-- A message posted to the display surface. -/
inductive WebviewMessage where
  | render (payload : PreviewPayload)
  | error (message : String)
deriving DecidableEq, Repr

/-- The observable effect of one `renderSession` execution. -/
structure RenderStep where
  session : PreviewSession
  collection : DiagnosticCollection
  messages : List WebviewMessage
  engineInvoked : Bool
deriving DecidableEq, Repr

/-- `PreviewManager.renderSession`: compare the freshly computed signatures
with the session's recorded ones and skip (no engine invocation) when not
forced and both match; otherwise invoke the renderer.  On a returned result:
map diagnostics, record the new signatures, cache the output as last
successful unless the result carries a truthy error message, and post a
render payload.  On a thrown exception: clear the session's diagnostics and
post a transport-error payload, leaving the session state untouched. -/
def renderSession (win32 : Bool) (s : PreviewSession) (force : Bool)
    (templateSignature contextSignature : Option String)
    (call : RenderCall) (collection : DiagnosticCollection) : RenderStep :=
  if !force && templateSignature == s.templateSignature
      && contextSignature == s.contextSignature then
    { session := s, collection := collection, messages := [], engineInvoked := false }
  else
    match call with
    | .ok result =>
      let applied := applyDiagnostics win32 s.templateUri s.contextUri
        result.diagnostics collection
      let isHtml := isHtmlTemplate s
      let s1 := { s with
        templateSignature := templateSignature
        contextSignature := contextSignature }
      let s2 := if errTruthy result.errorMessage then s1
        else { s1 with lastSuccessful := some ⟨result.rendered, isHtml⟩ }
      let payload := buildPreviewPayload s2 result applied.1 isHtml
      { session := s2
        collection := applied.2
        messages := [.render payload]
        engineInvoked := true }
    | .exn m =>
      let applied := applyDiagnostics win32 s.templateUri s.contextUri [] collection
      { session := s
        collection := applied.2
        messages := [.error m]
        engineInvoked := true }

/-! ## Session registry: keys, open, context update -/

/-- `PreviewManager.getKey`: case-normalized URI string. -/
def getKey (win32 : Bool) (u : Uri) : String :=
  normalizePath win32 u.uriString

/-- The session map `PreviewManager.sessions`. -/
abbrev SessionMap := List (String × PreviewSession)

/-- The fresh session record created on first preview open. -/
def newSessionFor (key : String) (templateUri : Uri) (contextUri : Option Uri)
    (languageId : String) : PreviewSession :=
  { templateKey := key
    templateUri := templateUri
    contextUri := contextUri
    languageId := languageId }

/-- `PreviewManager.showPreview`: create or reuse the session for the
template's key (reuse reassigns template, context and language), then render
with `force = true`.  The freshly computed signatures and the renderer
outcome are inputs of the model. -/
def showPreview (win32 : Bool) (sessions : SessionMap) (templateUri : Uri)
    (contextUri : Option Uri) (languageId : String)
    (templateSignature contextSignature : Option String)
    (call : RenderCall) (collection : DiagnosticCollection) :
    SessionMap × RenderStep :=
  let key := getKey win32 templateUri
  let session := match assocGet sessions key with
    | some s => { s with
        templateUri := templateUri
        contextUri := contextUri
        languageId := languageId }
    | none => newSessionFor key templateUri contextUri languageId
  let step := renderSession win32 session true templateSignature contextSignature
    call collection
  (assocSet sessions key step.session, step)

/-- `PreviewManager.updateContext`: no-op when no session exists for the
template; otherwise reassign the context and render with `force = true`. -/
def updateContext (win32 : Bool) (sessions : SessionMap) (templateUri : Uri)
    (contextUri : Option Uri) (templateSignature contextSignature : Option String)
    (call : RenderCall) (collection : DiagnosticCollection) :
    SessionMap × Option RenderStep :=
  let key := getKey win32 templateUri
  match assocGet sessions key with
  | none => (sessions, none)
  | some s =>
    let s1 := { s with contextUri := contextUri }
    let step := renderSession win32 s1 true templateSignature contextSignature
      call collection
    (assocSet sessions key step.session, some step)

/-! ## Debounced render scheduling -/

/-- The timer state backing `scheduleRender` for one session:
`renderTimer` is the handle stored on the session, `active` the timers
currently pending in the runtime for this session, `next` a fresh-handle
counter, `rendersRun` how many debounced renders have executed. -/
structure DebounceState where
  renderTimer : Option Nat
  active : List Nat
  next : Nat
  rendersRun : Nat
deriving DecidableEq, Repr

/-- `PreviewManager.scheduleRender`: cancel the session's pending timer if
any (`clearTimeout`), then schedule a fresh one and store its handle. -/
def scheduleRender (st : DebounceState) : DebounceState :=
  let active1 := match st.renderTimer with
    | some id => st.active.erase id
    | none => st.active
  { renderTimer := some st.next
    active := active1 ++ [st.next]
    next := st.next + 1
    rendersRun := st.rendersRun }

/-- The debounce window elapsing with no further trigger: every pending
timer fires; each firing clears the stored handle and executes one
(non-forced) render. -/
def elapseDebounceWindow (st : DebounceState) : DebounceState :=
  match st.active with
  | [] => st
  | l => { renderTimer := none, active := [], next := st.next
           rendersRun := st.rendersRun + l.length }

/-- `n` consecutive triggers inside the debounce window. -/
def iterateSchedule : Nat → DebounceState → DebounceState
  | 0, st => st
  | n + 1, st => iterateSchedule n (scheduleRender st)

/-- Well-formedness of the timer state: the runtime's pending timers for the
session are exactly the handle the session stores, and all pending handles
were issued before `next`. -/
def DebounceInv (st : DebounceState) : Prop :=
  st.active = (match st.renderTimer with
    | some id => [id]
    | none => []) ∧ ∀ id ∈ st.active, id < st.next

/-! ## Document-change / document-save routing -/

/-- The per-session state the registry's routing acts on. -/
structure RouteSession where
  templateUri : Uri
  contextUri : Option Uri
  debounce : DebounceState
deriving DecidableEq, Repr

/-- A render is scheduled for this session. -/
def scheduleSession (s : RouteSession) : RouteSession :=
  { s with debounce := scheduleRender s.debounce }

/-- `PreviewManager.handleSavedDocument`: walk every session; schedule a
render when the saved document is the session's template (then `continue`)
or its bound context document. -/
def handleSavedDocument (win32 : Bool) (doc : Uri) (sessions : List RouteSession) :
    List RouteSession :=
  sessions.map (fun s =>
    if isSameResource win32 doc s.templateUri then scheduleSession s
    else match s.contextUri with
      | some cu => if isSameResource win32 doc cu then scheduleSession s else s
      | none => s)

/-- `PreviewManager.handleChangedDocument`: identical routing for in-progress
edits. -/
def handleChangedDocument (win32 : Bool) (doc : Uri) (sessions : List RouteSession) :
    List RouteSession :=
  sessions.map (fun s =>
    if isSameResource win32 doc s.templateUri then scheduleSession s
    else match s.contextUri with
      | some cu => if isSameResource win32 doc cu then scheduleSession s else s
      | none => s)

/-- The saved document is relevant to this session: it is the template or
the bound context document. -/
def sessionMatches (win32 : Bool) (doc : Uri) (s : RouteSession) : Prop :=
  isSameResource win32 doc s.templateUri = true ∨
    ∃ cu, s.contextUri = some cu ∧ isSameResource win32 doc cu = true

/-! ## Renderer client: dirty-document snapshots and cleanup

`RendererService.render` snapshots dirty in-memory documents to temporary
directories before invoking the engine and disposes the snapshots in a
`finally` block.  The filesystem is modelled as the list of temporary
directories currently existing; `fs.mkdtemp` always yields a fresh directory,
while the outcomes of `fs.writeFile` (the snapshot write) and `fs.rm` (the
cleanup) are inputs.  A failed `rm` is caught and logged by `dispose`; a
failed `writeFile` propagates as an exception. -/

/-- The temporary directories existing on disk, plus a freshness counter. -/
structure TempWorld where
  dirs : List Nat
  next : Nat
deriving DecidableEq, Repr

/-- A `FileSnapshot`: the path handed to the engine and, for a dirty
document, the temporary directory to remove on dispose. -/
structure FileSnapshot where
  fsPath : String
  tempDir : Option Nat
deriving DecidableEq, Repr

/-- `RendererService.createSnapshot`: a clean (or closed) document is used
in place with a no-op dispose; a dirty document gets a fresh temporary
directory and a snapshot write whose failure throws after the directory was
created. -/
def createSnapshot (u : Uri) (dirty : Bool) (writeOk : Bool) (w : TempWorld) :
    Except String FileSnapshot × TempWorld :=
  if !dirty then (Except.ok ⟨u.fsPath, none⟩, w)
  else
    let dir := w.next
    let w1 : TempWorld := ⟨w.dirs ++ [dir], w.next + 1⟩
    if writeOk then (Except.ok ⟨"tmp-snapshot", some dir⟩, w1)
    else (Except.error "snapshot write failed", w1)

/-- `FileSnapshot.dispose`: remove the temporary directory; a removal
failure is caught and only logged. -/
def disposeSnapshot (s : FileSnapshot) (rmOk : Bool) (w : TempWorld) : TempWorld :=
  match s.tempDir with
  | none => w
  | some d => if rmOk then ⟨w.dirs.erase d, w.next⟩ else w

/-- What happens inside the `try` block once both snapshots exist: the
engine call either returns a result or throws (command resolution, process
launch, non-zero exit, malformed payload). -/
inductive EngineOutcome where
  | ok (result : RenderResult)
  | exn (message : String)
deriving DecidableEq, Repr

/-- `RendererService.render`: snapshot the template, then the context (both
before the `try`), run the engine inside `try`, and dispose both snapshots
in `finally` (template first).  A snapshot-creation failure propagates the
exception without reaching the `finally`. -/
def rendererRender (template : Uri) (contextFile : Option Uri)
    (templateDirty contextDirty : Bool) (templateWriteOk contextWriteOk : Bool)
    (engine : EngineOutcome) (rmOk : Bool) (w : TempWorld) :
    Except String RenderResult × TempWorld :=
  match createSnapshot template templateDirty templateWriteOk w with
  | (Except.error e, w1) => (Except.error e, w1)
  | (Except.ok ts, w1) =>
    match contextFile with
    | some cu =>
      (match createSnapshot cu contextDirty contextWriteOk w1 with
        | (Except.error e, w2) => (Except.error e, w2)
        | (Except.ok cs, w2) =>
          match engine with
          | .ok r => (Except.ok r, disposeSnapshot cs rmOk (disposeSnapshot ts rmOk w2))
          | .exn m => (Except.error m, disposeSnapshot cs rmOk (disposeSnapshot ts rmOk w2)))
    | none =>
      match engine with
      | .ok r => (Except.ok r, disposeSnapshot ts rmOk w1)
      | .exn m => (Except.error m, disposeSnapshot ts rmOk w1)

/-- Freshness of the counter with respect to the existing directories. -/
def TempInv (w : TempWorld) : Prop :=
  ∀ d ∈ w.dirs, d < w.next

/-! ## Demo fixtures used by witnesses and counterexamples -/

/-- A template document URI used in concrete scenarios. -/
def demoTemplateUri : Uri := ⟨"/t.tmpl", "file:///t.tmpl"⟩

/-- A context document URI used in concrete scenarios. -/
def demoContextUri : Uri := ⟨"/c.json", "file:///c.json"⟩

/-- A session with no prior successful render. -/
def demoSessionNoSuccess : PreviewSession :=
  { templateKey := "file:///t.tmpl"
    templateUri := demoTemplateUri
    contextUri := none
    languageId := "plaintext" }

/-- A session whose last successful render produced `"A"`. -/
def demoSessionWithSuccess : PreviewSession :=
  { demoSessionNoSuccess with lastSuccessful := some ⟨"A", false⟩ }

/-- A failing render result that nonetheless carries engine output. -/
def demoFailResult : RenderResult :=
  { rendered := "X", diagnostics := [], durationMs := 5, errorMessage := some "boom" }

/-! ## Theorems -/

/-- Boolean shape of the signature-skip test of `renderSession`. -/
theorem bool_not_and3 (x a b : Bool) : (!(!x && a && b)) = (x || !a || !b) := by
  cases x <;> cases a <;> cases b <;> rfl

/-- `renderSession` when the skip condition holds: nothing happens and the
engine is not invoked. -/
theorem renderSession_skip (win32 : Bool) (s : PreviewSession) (force : Bool)
    (tSig cSig : Option String) (call : RenderCall) (coll : DiagnosticCollection)
    (hskip : (!force && tSig == s.templateSignature && cSig == s.contextSignature) = true) :
    renderSession win32 s force tSig cSig call coll
      = { session := s, collection := coll, messages := [], engineInvoked := false } := by
  simp only [renderSession]
  rw [if_pos hskip]

/-- `renderSession` on a returned result when the render is not skipped. -/
theorem renderSession_ok (win32 : Bool) (s : PreviewSession) (force : Bool)
    (tSig cSig : Option String) (result : RenderResult) (coll : DiagnosticCollection)
    (hrun : (!force && tSig == s.templateSignature && cSig == s.contextSignature) = false) :
    renderSession win32 s force tSig cSig (.ok result) coll
      = { session :=
            if errTruthy result.errorMessage then
              { s with templateSignature := tSig, contextSignature := cSig }
            else
              { s with templateSignature := tSig, contextSignature := cSig
                       lastSuccessful := some ⟨result.rendered, isHtmlTemplate s⟩ }
          collection := (applyDiagnostics win32 s.templateUri s.contextUri
            result.diagnostics coll).2
          messages := [WebviewMessage.render (buildPreviewPayload
            (if errTruthy result.errorMessage then
              { s with templateSignature := tSig, contextSignature := cSig }
            else
              { s with templateSignature := tSig, contextSignature := cSig
                       lastSuccessful := some ⟨result.rendered, isHtmlTemplate s⟩ })
            result
            (applyDiagnostics win32 s.templateUri s.contextUri result.diagnostics coll).1
            (isHtmlTemplate s))]
          engineInvoked := true } := by
  simp only [renderSession]
  rw [if_neg (by simp [hrun])]

/-- `renderSession` on a thrown renderer exception when the render is not
skipped: diagnostics are cleared, a transport-error message is posted, the
session state is untouched. -/
theorem renderSession_exn (win32 : Bool) (s : PreviewSession) (force : Bool)
    (tSig cSig : Option String) (m : String) (coll : DiagnosticCollection)
    (hrun : (!force && tSig == s.templateSignature && cSig == s.contextSignature) = false) :
    renderSession win32 s force tSig cSig (.exn m) coll
      = { session := s
          collection := (applyDiagnostics win32 s.templateUri s.contextUri [] coll).2
          messages := [WebviewMessage.error m]
          engineInvoked := true } := by
  simp only [renderSession]
  rw [if_neg (by simp [hrun])]

/-- Claim C1: if a session has a recorded last successful render and a
subsequent render completes with a (truthy) `errorMessage`, the payload
posted to the display surface has `isStale = true`, its `rendered` field is
the previously stored last-successful content, it carries the new
`errorMessage`, and the stored last-successful content is unchanged. -/
theorem claim_C1_stale_fallback (win32 : Bool) (s : PreviewSession) (force : Bool)
    (tSig cSig : Option String) (result : RenderResult) (coll : DiagnosticCollection)
    (lg : LastSuccessful)
    (hprev : s.lastSuccessful = some lg)
    (herr : errTruthy result.errorMessage = true)
    (hrun : (!force && tSig == s.templateSignature && cSig == s.contextSignature) = false) :
    ∃ p, (renderSession win32 s force tSig cSig (.ok result) coll).messages
        = [WebviewMessage.render p]
      ∧ p.isStale = true
      ∧ p.rendered = lg.rendered
      ∧ p.errorMessage = result.errorMessage
      ∧ (renderSession win32 s force tSig cSig (.ok result) coll).session.lastSuccessful
          = some lg := by
  rw [renderSession_ok win32 s force tSig cSig result coll hrun]
  simp only [herr, if_true]
  refine ⟨_, rfl, ?_, ?_, ?_, ?_⟩ <;>
    simp [buildPreviewPayload, herr, hprev]

/-- Witness for C1 at a concrete session and failing result. -/
theorem claim_C1_stale_fallback_witness :
    ∃ p, (renderSession false demoSessionWithSuccess false (some "sig") none
        (.ok demoFailResult) []).messages = [WebviewMessage.render p]
      ∧ p.isStale = true
      ∧ p.rendered = "A"
      ∧ p.errorMessage = some "boom"
      ∧ (renderSession false demoSessionWithSuccess false (some "sig") none
          (.ok demoFailResult) []).session.lastSuccessful = some ⟨"A", false⟩ :=
  claim_C1_stale_fallback false demoSessionWithSuccess false (some "sig") none
    demoFailResult [] ⟨"A", false⟩ rfl rfl rfl

/-- Claim C2 counterexample: on a failing render with no prior success the
code posts a regular render payload whose `rendered` field is whatever the
engine produced (here `"X"`), not an explicit error payload with empty
content as the claim states. -/
theorem claim_C2_counterexample :
    (renderSession false demoSessionNoSuccess true none none
        (.ok demoFailResult) []).messages
      = [WebviewMessage.render
          { rendered := "X", diagnostics := [], isHtml := false, durationMs := 5
            isStale := false, errorMessage := some "boom" }]
      ∧ ("X" : String) ≠ "" := by
  refine ⟨?_, by decide⟩
  rw [renderSession_ok false demoSessionNoSuccess true none none demoFailResult [] rfl]
  rfl

/-- Claim C2 as amended: on a failing render (truthy `errorMessage`) with no
prior success, the message posted is a render payload (not the
transport-error payload) with `isStale = false`, whose `rendered` field is
the engine's rendered output verbatim, carrying the new `errorMessage`.
(With this repository's engine the rendered field is empty alongside an
error, so the displayed content is empty in practice.) -/
theorem claim_C2_amended (win32 : Bool) (s : PreviewSession) (force : Bool)
    (tSig cSig : Option String) (result : RenderResult) (coll : DiagnosticCollection)
    (hnone : s.lastSuccessful = none)
    (herr : errTruthy result.errorMessage = true)
    (hrun : (!force && tSig == s.templateSignature && cSig == s.contextSignature) = false) :
    ∃ p, (renderSession win32 s force tSig cSig (.ok result) coll).messages
        = [WebviewMessage.render p]
      ∧ p.rendered = result.rendered
      ∧ p.isStale = false
      ∧ p.errorMessage = result.errorMessage := by
  rw [renderSession_ok win32 s force tSig cSig result coll hrun]
  simp only [herr, if_true]
  refine ⟨_, rfl, ?_, ?_, ?_⟩ <;>
    simp [buildPreviewPayload, herr, hnone]

/-- Witness for the amended C2 at a concrete session and failing result. -/
theorem claim_C2_amended_witness :
    ∃ p, (renderSession false demoSessionNoSuccess true none none
        (.ok demoFailResult) []).messages = [WebviewMessage.render p]
      ∧ p.rendered = "X"
      ∧ p.isStale = false
      ∧ p.errorMessage = some "boom" :=
  claim_C2_amended false demoSessionNoSuccess true none none demoFailResult []
    rfl rfl rfl

/-- Claim C6: a render execution invokes the engine exactly when forced or
some freshly computed signature differs from the session's recorded ones (so
a non-forced trigger with both signatures unchanged performs no invocation),
and `showPreview` and `updateContext` always render forced. -/
theorem claim_C6_invocation_iff (win32 : Bool) (s : PreviewSession) (force : Bool)
    (tSig cSig : Option String) (call : RenderCall) (coll : DiagnosticCollection)
    (sessions : SessionMap) (templateUri : Uri) (contextUri : Option Uri)
    (languageId : String) :
    ((renderSession win32 s force tSig cSig call coll).engineInvoked
        = (force || !(tSig == s.templateSignature) || !(cSig == s.contextSignature)))
    ∧ ((showPreview win32 sessions templateUri contextUri languageId tSig cSig
        call coll).2.engineInvoked = true)
    ∧ (∀ step, (updateContext win32 sessions templateUri contextUri tSig cSig
        call coll).2 = some step → step.engineInvoked = true) := by
  have invoked : ∀ (s1 : PreviewSession) (force1 : Bool) (c1 : DiagnosticCollection),
      (renderSession win32 s1 force1 tSig cSig call c1).engineInvoked
        = !(!force1 && (tSig == s1.templateSignature) && (cSig == s1.contextSignature)) := by
    intro s1 force1 c1
    cases hb : (!force1 && (tSig == s1.templateSignature) && (cSig == s1.contextSignature)) with
    | true => rw [renderSession_skip win32 s1 force1 tSig cSig call c1 hb]; rfl
    | false =>
      cases call with
      | ok r => rw [renderSession_ok win32 s1 force1 tSig cSig r c1 hb]; rfl
      | exn m => rw [renderSession_exn win32 s1 force1 tSig cSig m c1 hb]; rfl
  refine ⟨?_, ?_, ?_⟩
  · rw [invoked s force coll, bool_not_and3]
  · simp only [showPreview]
    rw [invoked _ true coll]
    rfl
  · intro step h
    cases hfind : assocGet sessions (getKey win32 templateUri) with
    | none => simp [updateContext, hfind] at h
    | some s0 =>
      simp only [updateContext, hfind, Option.some.injEq] at h
      rw [← h, invoked _ true coll]
      rfl

/-- Witness for C6: a non-forced render with unchanged signatures is
skipped, and `updateContext` on an existing session renders forced. -/
theorem claim_C6_invocation_iff_witness :
    ((renderSession false demoSessionNoSuccess false none none
        (.ok demoFailResult) []).engineInvoked
      = ((false : Bool) || !((none : Option String) == demoSessionNoSuccess.templateSignature)
          || !((none : Option String) == demoSessionNoSuccess.contextSignature)))
    ∧ (∀ step, (updateContext false [("file:///t.tmpl", demoSessionNoSuccess)]
        demoTemplateUri none none none (.ok demoFailResult) []).2 = some step →
          step.engineInvoked = true) :=
  ⟨(claim_C6_invocation_iff false demoSessionNoSuccess false none none
      (.ok demoFailResult) [] [] demoTemplateUri none "plaintext").1,
    (claim_C6_invocation_iff false demoSessionNoSuccess false none none
      (.ok demoFailResult) [] [("file:///t.tmpl", demoSessionNoSuccess)]
      demoTemplateUri none "plaintext").2.2⟩

/-- Claim C10: a render that reaches the renderer and returns a result with
a (truthy) `errorMessage` still records the freshly computed signatures,
leaves `lastSuccessful` unchanged, and a later non-forced trigger with
identical content is therefore skipped without invoking the engine. -/
theorem claim_C10_signatures_updated_on_failure (win32 : Bool) (s : PreviewSession)
    (force : Bool) (tSig cSig : Option String) (result : RenderResult)
    (coll : DiagnosticCollection)
    (herr : errTruthy result.errorMessage = true)
    (hrun : (!force && tSig == s.templateSignature && cSig == s.contextSignature) = false) :
    (renderSession win32 s force tSig cSig (.ok result) coll).session.templateSignature = tSig
    ∧ (renderSession win32 s force tSig cSig (.ok result) coll).session.contextSignature = cSig
    ∧ (renderSession win32 s force tSig cSig (.ok result) coll).session.lastSuccessful
        = s.lastSuccessful
    ∧ ∀ call2 coll2,
        (renderSession win32
          (renderSession win32 s force tSig cSig (.ok result) coll).session
          false tSig cSig call2 coll2).engineInvoked = false := by
  rw [renderSession_ok win32 s force tSig cSig result coll hrun]
  simp only [herr, if_true]
  refine ⟨trivial, trivial, trivial, ?_⟩
  intro call2 coll2
  rw [renderSession_skip win32 _ false tSig cSig call2 coll2 (by simp)]

/-- Witness for C10 at a concrete failing render. -/
theorem claim_C10_signatures_updated_on_failure_witness :
    (renderSession false demoSessionWithSuccess false (some "sig") none
        (.ok demoFailResult) []).session.templateSignature = some "sig"
    ∧ (renderSession false demoSessionWithSuccess false (some "sig") none
        (.ok demoFailResult) []).session.contextSignature = none
    ∧ (renderSession false demoSessionWithSuccess false (some "sig") none
        (.ok demoFailResult) []).session.lastSuccessful
          = demoSessionWithSuccess.lastSuccessful
    ∧ ∀ call2 coll2,
        (renderSession false
          (renderSession false demoSessionWithSuccess false (some "sig") none
            (.ok demoFailResult) []).session
          false (some "sig") none call2 coll2).engineInvoked = false :=
  claim_C10_signatures_updated_on_failure false demoSessionWithSuccess false
    (some "sig") none demoFailResult [] rfl rfl

/-- One `scheduleRender` preserves timer well-formedness, leaves exactly the
fresh timer pending, and does not itself run a render. -/
theorem scheduleRender_preserves (st : DebounceState) (h : DebounceInv st) :
    DebounceInv (scheduleRender st)
      ∧ (scheduleRender st).active = [st.next]
      ∧ (scheduleRender st).rendersRun = st.rendersRun := by
  obtain ⟨hact, hlt⟩ := h
  cases hrt : st.renderTimer with
  | none =>
    rw [hrt] at hact
    refine ⟨⟨?_, ?_⟩, ?_, rfl⟩ <;> simp [scheduleRender, hrt, hact]
  | some id =>
    rw [hrt] at hact
    refine ⟨⟨?_, ?_⟩, ?_, rfl⟩ <;> simp [scheduleRender, hrt, hact]

/-- Iterating triggers keeps exactly one pending timer, runs no render, and
preserves well-formedness. -/
theorem iterateSchedule_spec : ∀ (n : Nat) (st : DebounceState), DebounceInv st → 1 ≤ n →
    (iterateSchedule n st).active.length = 1
      ∧ (iterateSchedule n st).rendersRun = st.rendersRun
      ∧ DebounceInv (iterateSchedule n st)
  | 0, _, _, hn => absurd hn (by norm_num)
  | 1, st, h, _ => by
    obtain ⟨hinv, hact, hrun⟩ := scheduleRender_preserves st h
    exact ⟨by simp [iterateSchedule, hact], by simp [iterateSchedule, hrun], by
      simpa [iterateSchedule] using hinv⟩
  | (n + 2), st, h, _ => by
    obtain ⟨hinv, hact, hrun⟩ := scheduleRender_preserves st h
    obtain ⟨h1, h2, h3⟩ := iterateSchedule_spec (n + 1) (scheduleRender st) hinv (by norm_num)
    refine ⟨h1, ?_, h3⟩
    rw [show iterateSchedule (n + 2) st = iterateSchedule (n + 1) (scheduleRender st) from rfl]
    rw [h2, hrun]

/-- Claim C7: each trigger cancels the session's pending timer and schedules
exactly one fresh one, so any non-empty sequence of triggers inside the
debounce window leaves exactly one pending timer and executes exactly one
render when the window elapses. -/
theorem claim_C7_debounce_coalescing (st : DebounceState) (h : DebounceInv st) :
    (DebounceInv (scheduleRender st)
      ∧ (scheduleRender st).active = [st.next]
      ∧ (∀ id, st.renderTimer = some id → id ∉ (scheduleRender st).active))
    ∧ (∀ n, 1 ≤ n →
        (iterateSchedule n st).active.length = 1
          ∧ (elapseDebounceWindow (iterateSchedule n st)).rendersRun
              = st.rendersRun + 1) := by
  obtain ⟨hinv, hact, hrun⟩ := scheduleRender_preserves st h
  refine ⟨⟨hinv, hact, ?_⟩, ?_⟩
  · intro id hid
    rw [hact]
    obtain ⟨hact0, hlt0⟩ := h
    have hmem : id ∈ st.active := by rw [hact0, hid]; exact List.mem_singleton.mpr rfl
    have : id < st.next := hlt0 id hmem
    simp only [List.mem_singleton]
    omega
  · intro n hn
    obtain ⟨h1, h2, _⟩ := iterateSchedule_spec n st h hn
    refine ⟨h1, ?_⟩
    cases hc : (iterateSchedule n st).active with
    | nil => rw [hc] at h1; simp at h1
    | cons x xs =>
      have hxs : xs = [] := by
        rw [hc] at h1
        simpa using h1
      subst hxs
      simp [elapseDebounceWindow, hc, h2]

/-- Witness for C7: three rapid triggers from an idle session leave one
pending timer and execute exactly one render. -/
theorem claim_C7_debounce_coalescing_witness :
    (iterateSchedule 3 ⟨none, [], 0, 0⟩).active.length = 1
      ∧ (elapseDebounceWindow (iterateSchedule 3 ⟨none, [], 0, 0⟩)).rendersRun = 0 + 1 :=
  (claim_C7_debounce_coalescing ⟨none, [], 0, 0⟩ ⟨rfl, by simp⟩).2 3 (by norm_num)

/-- A matching session is rewritten to its scheduled form by the routing
loop body. -/
theorem routeBody_matches (win32 : Bool) (doc : Uri) (s : RouteSession)
    (hm : sessionMatches win32 doc s) :
    (if isSameResource win32 doc s.templateUri then scheduleSession s
      else match s.contextUri with
        | some cu => if isSameResource win32 doc cu then scheduleSession s else s
        | none => s) = scheduleSession s := by
  rcases hm with ht | ⟨cu, hcu, hs⟩
  · rw [if_pos ht]
  · by_cases ht : isSameResource win32 doc s.templateUri = true
    · rw [if_pos ht]
    · rw [if_neg ht, hcu]
      show (if isSameResource win32 doc cu = true then scheduleSession s else s)
        = scheduleSession s
      rw [if_pos hs]

/-- Claim C9: routing a document-save or document-change event schedules a
render on every open session whose template or bound context document is the
changed document — in particular on every session sharing that context. -/
theorem claim_C9_all_matching_scheduled (win32 : Bool) (doc : Uri)
    (sessions : List RouteSession) (d : RouteSession) (i : Nat)
    (hi : i < sessions.length)
    (hm : sessionMatches win32 doc (sessions.getD i d)) :
    (handleSavedDocument win32 doc sessions).length = sessions.length
    ∧ (handleChangedDocument win32 doc sessions).length = sessions.length
    ∧ (handleSavedDocument win32 doc sessions).getD i d
        = scheduleSession (sessions.getD i d)
    ∧ (handleChangedDocument win32 doc sessions).getD i d
        = scheduleSession (sessions.getD i d) := by
  have hget : sessions.get? i = some (sessions.getD i d) := by
    rw [List.getD_eq_getD_get?]
    cases hq : sessions.get? i with
    | none => exact absurd (List.get?_eq_none.mp hq) (by omega)
    | some x => rfl
  refine ⟨by simp [handleSavedDocument], by simp [handleChangedDocument], ?_, ?_⟩
  · rw [handleSavedDocument, List.getD_eq_getD_get?, List.get?_map, hget]
    exact routeBody_matches win32 doc _ hm
  · rw [handleChangedDocument, List.getD_eq_getD_get?, List.get?_map, hget]
    exact routeBody_matches win32 doc _ hm

/-- Two demo sessions sharing the same context document. -/
def demoRouteA : RouteSession :=
  ⟨demoTemplateUri, some demoContextUri, ⟨none, [], 0, 0⟩⟩

/-- Second demo session bound to the same context document. -/
def demoRouteB : RouteSession :=
  ⟨⟨"/u.tmpl", "file:///u.tmpl"⟩, some demoContextUri, ⟨none, [], 0, 0⟩⟩

/-- Witness for C9: saving the shared context document schedules a render
for both sessions, not just the first match. -/
theorem claim_C9_all_matching_scheduled_witness :
    (handleSavedDocument false demoContextUri [demoRouteA, demoRouteB]).getD 0 demoRouteA
        = scheduleSession demoRouteA
    ∧ (handleSavedDocument false demoContextUri [demoRouteA, demoRouteB]).getD 1 demoRouteA
        = scheduleSession demoRouteB :=
  ⟨(claim_C9_all_matching_scheduled false demoContextUri [demoRouteA, demoRouteB]
      demoRouteA 0 (by norm_num)
      (Or.inr ⟨demoContextUri, rfl, by decide⟩)).2.2.1,
    (claim_C9_all_matching_scheduled false demoContextUri [demoRouteA, demoRouteB]
      demoRouteA 1 (by norm_num)
      (Or.inr ⟨demoContextUri, rfl, by decide⟩)).2.2.1⟩

/-- Claim C8 counterexample: when the template document is dirty and its
snapshot is created, and then creating the context snapshot fails (its
snapshot write throws), `render` propagates the exception without reaching
the `finally` block — both temporary directories created so far remain on
disk, contradicting cleanup on every exit path. -/
theorem claim_C8_counterexample :
    (rendererRender demoTemplateUri (some demoContextUri) true true true false
        (.ok ⟨"", [], 0, none⟩) true ⟨[], 0⟩).2.dirs = [0, 1]
    ∧ ([0, 1] : List Nat) ≠ [] :=
  ⟨rfl, by decide⟩

/-- A fresh directory counter is not among the existing directories. -/
theorem TempInv.next_notMem {w : TempWorld} (hw : TempInv w) : w.next ∉ w.dirs := by
  intro h
  exact absurd (hw w.next h) (lt_irrefl _)

/-- Claim C8 as amended: once all needed snapshots have been created, every
exit path of `render` — success, engine-level failure, or an exception from
command resolution or the spawned process — removes the temporary snapshot
directories (removal itself succeeding); only the paths where a snapshot
write fails, or where the context snapshot creation fails after the template
snapshot was created, leak the directories created so far. -/
theorem claim_C8_amended (template : Uri) (contextFile : Option Uri)
    (templateDirty contextDirty : Bool) (engine : EngineOutcome) (w : TempWorld)
    (hw : TempInv w) :
    (rendererRender template contextFile templateDirty contextDirty true true
        engine true w).2.dirs = w.dirs := by
  have hnm : w.next ∉ w.dirs := hw.next_notMem
  have hnm1 : w.next + 1 ∉ w.dirs := by
    intro h
    have := hw _ h
    omega
  cases templateDirty with
  | false =>
    cases contextFile with
    | none => cases engine <;> rfl
    | some cu =>
      cases contextDirty with
      | false => cases engine <;> rfl
      | true =>
        cases engine <;>
          simp [rendererRender, createSnapshot, disposeSnapshot,
            List.erase_append_right _ hnm]
  | true =>
    cases contextFile with
    | none =>
      cases engine <;>
        simp [rendererRender, createSnapshot, disposeSnapshot,
          List.erase_append_right _ hnm]
    | some cu =>
      cases contextDirty with
      | false =>
        cases engine <;>
          simp [rendererRender, createSnapshot, disposeSnapshot,
            List.erase_append_right _ hnm]
      | true =>
        cases engine <;>
          simp [rendererRender, createSnapshot, disposeSnapshot,
            List.erase_append_right, hnm, hnm1]

/-- Witness for the amended C8: both documents dirty, the engine throws, and
the two snapshot directories are removed. -/
theorem claim_C8_amended_witness :
    (rendererRender demoTemplateUri (some demoContextUri) true true true true
        (.exn "spawn fail") true ⟨[], 0⟩).2.dirs = [] :=
  claim_C8_amended demoTemplateUri (some demoContextUri) true true
    (.exn "spawn fail") ⟨[], 0⟩ (by intro d h; simp at h)

/-- Claim C3 counterexample: the message `"template: x:2: "` matches the
prefix shape with line digits `2` and empty remaining text, yet the mapped
diagnostic keeps the whole original message (the code falls back with
`remaining || message` when the remaining text is empty) instead of the
empty text after the prefix. -/
theorem claim_C3_counterexample :
    templateLocCaptures "template: x:2: " = some (['2'], none, [])
    ∧ (previewOf false demoTemplateUri none
        { message := "template: x:2: ", severity := .error }).message
          = "template: x:2: "
    ∧ ("template: x:2: " : String) ≠ String.mk [] := by
  refine ⟨by decide, by decide, by decide⟩

/-- Claim C3 as amended: for a diagnostic whose structured line is absent or
non-positive and whose message matches the prefix shape with line digits
`N`, optional column digits `C` and remaining text `rest`, the mapped
diagnostic has `line = N-1` when `N ≥ 1` (no line when `N = 0`),
`character = C-1` when `C` is present and `≥ 1` (no character when `C` is
absent or `0`), and its message is the text after the prefix when that text
is nonempty, the original message otherwise. -/
theorem positionFieldOf_ofNat (n : Nat) :
    positionFieldOf (some (Int.ofNat n))
      = if 1 ≤ n then some (n - 1) else none := by
  cases n with
  | zero => rfl
  | succ m =>
    have h1 : (0 : Int) < Int.ofNat (m + 1) := by
      rw [Int.ofNat_eq_natCast]
      exact_mod_cast Nat.succ_pos m
    simp only [positionFieldOf, zeroBasedOf, h1, if_true]
    rw [if_pos (by omega)]
    congr 1
    rw [Int.ofNat_eq_natCast]
    omega

/-- The column group as `parseTemplateLocation` records it: absent when the
optional group did not capture or captured the falsy `0`. -/
def parsedColumnOf (d2 : Option (List Char)) : Option Nat :=
  match d2 with
  | some ds => if digitsToNat ds = 0 then none else some (digitsToNat ds)
  | none => none

/-- The column field the claim predicts, 0-based. -/
def expectedCharacterOf (d2 : Option (List Char)) : Option Nat :=
  d2.elim none (fun ds => if 1 ≤ digitsToNat ds then some (digitsToNat ds - 1) else none)

/-- `normalizeDiagnostic` when the structured line is absent or non-positive
and the message parses: the parsed fields win, converted to 0-based with
non-positive values dropped. -/
theorem normalizeDiagnostic_of_parsed (d : RenderDiagnostic) (p : ParsedLocation)
    (hneed : (match d.line with
      | none => true
      | some v => decide (v ≤ 0)) = true)
    (hp : parseTemplateLocation d.message = some p) :
    (normalizeDiagnostic d).message = p.message
    ∧ (normalizeDiagnostic d).line = (if 1 ≤ p.line then some (p.line - 1) else none)
    ∧ (normalizeDiagnostic d).character
        = p.column.elim none (fun cv => if 1 ≤ cv then some (cv - 1) else none) := by
  have hM : (normalizeDiagnostic d).message = p.message := by
    unfold normalizeDiagnostic
    simp only [hneed, if_true, hp]
  have hL : (normalizeDiagnostic d).line = positionFieldOf (some (Int.ofNat p.line)) := by
    unfold normalizeDiagnostic
    simp only [hneed, if_true, hp]
  have hC : (normalizeDiagnostic d).character
      = positionFieldOf (p.column.map Int.ofNat) := by
    unfold normalizeDiagnostic
    simp only [hneed, if_true, hp]
  refine ⟨hM, ?_, ?_⟩
  · rw [hL, positionFieldOf_ofNat]
  · rw [hC]
    cases p.column with
    | none => rfl
    | some cv =>
      show positionFieldOf (some (Int.ofNat cv)) = if 1 ≤ cv then some (cv - 1) else none
      exact positionFieldOf_ofNat cv

/-- Claim C3 as amended: for a diagnostic whose structured line is absent or
non-positive and whose message matches the prefix shape with line digits
`N`, optional column digits `C` and remaining text `rest`, the mapped
diagnostic has `line = N-1` when `N ≥ 1` (no line when `N = 0`),
`character = C-1` when `C` is present and `≥ 1` (no character when `C` is
absent or `0`), and its message is the text after the prefix when that text
is nonempty, the original message otherwise. -/
theorem claim_C3_amended (win32 : Bool) (t : Uri) (c : Option Uri)
    (d : RenderDiagnostic) (d1 : List Char) (d2 : Option (List Char))
    (rest : List Char)
    (hline : d.line = none ∨ ∃ v, d.line = some v ∧ v ≤ 0)
    (hcap : templateLocCaptures d.message = some (d1, d2, rest)) :
    (previewOf win32 t c d).line
        = (if 1 ≤ digitsToNat d1 then some (digitsToNat d1 - 1) else none)
    ∧ (previewOf win32 t c d).character = expectedCharacterOf d2
    ∧ (previewOf win32 t c d).message
        = (if rest.isEmpty then d.message else String.mk rest) := by
  have hparse : parseTemplateLocation d.message
      = some
        { line := digitsToNat d1
          column := parsedColumnOf d2
          message := if rest.isEmpty then d.message else String.mk rest } := by
    unfold parseTemplateLocation
    simp only [hcap]
    cases d2 <;> rfl
  have hneed : (match d.line with
      | none => true
      | some v => decide (v ≤ 0)) = true := by
    rcases hline with h | ⟨v, hv, hvle⟩
    · rw [h]
    · rw [hv]
      simpa using hvle
  obtain ⟨hm, hl, hc⟩ := normalizeDiagnostic_of_parsed d _ hneed hparse
  refine ⟨?_, ?_, ?_⟩
  · rw [show (previewOf win32 t c d).line = (normalizeDiagnostic d).line from rfl, hl]
  · rw [show (previewOf win32 t c d).character = (normalizeDiagnostic d).character from rfl,
      hc]
    cases d2 with
    | none => rfl
    | some ds =>
      show (parsedColumnOf (some ds)).elim none
          (fun cv => if 1 ≤ cv then some (cv - 1) else none)
        = expectedCharacterOf (some ds)
      by_cases h0 : digitsToNat ds = 0
      · simp only [parsedColumnOf, expectedCharacterOf, if_pos h0, Option.elim]
        rw [if_neg (by omega)]
      · simp only [parsedColumnOf, expectedCharacterOf, if_neg h0, Option.elim]
  · rw [show (previewOf win32 t c d).message = (normalizeDiagnostic d).message from rfl, hm]

/-- Witness for the amended C3 on the engine's usual message shape. -/
theorem claim_C3_amended_witness :
    (previewOf false demoTemplateUri none
        { message := "template: T:2: unexpected EOF", severity := .error }).line
      = (if 1 ≤ digitsToNat ['2'] then some (digitsToNat ['2'] - 1) else none)
    ∧ (previewOf false demoTemplateUri none
        { message := "template: T:2: unexpected EOF", severity := .error }).character
      = expectedCharacterOf none
    ∧ (previewOf false demoTemplateUri none
        { message := "template: T:2: unexpected EOF", severity := .error }).message
      = (if (("unexpected EOF").toList).isEmpty
          then "template: T:2: unexpected EOF"
          else String.mk ("unexpected EOF").toList) :=
  claim_C3_amended false demoTemplateUri none
    { message := "template: T:2: unexpected EOF", severity := .error }
    ['2'] none ("unexpected EOF").toList (Or.inl rfl) (by decide)

/-! ## Association-list lemmas for the diagnostics index -/

theorem assocGet_nil {α : Type} (k : String) : assocGet ([] : List (String × α)) k = none :=
  rfl

theorem assocGet_cons {α : Type} (p : String × α) (rest : List (String × α)) (k : String) :
    assocGet (p :: rest) k = if p.1 = k then some p.2 else assocGet rest k := by
  by_cases h : p.1 = k
  · have hb : (p.1 == k) = true := beq_iff_eq.mpr h
    simp [assocGet, List.find?_cons, hb, h]
  · have hb : (p.1 == k) = false := by simpa using h
    simp [assocGet, List.find?_cons, hb, h]

theorem assocSet_nil {α : Type} (k : String) (v : α) :
    assocSet ([] : List (String × α)) k v = [(k, v)] :=
  rfl

theorem assocSet_cons {α : Type} (p : String × α) (rest : List (String × α))
    (k : String) (v : α) :
    assocSet (p :: rest) k v
      = if p.1 = k then (k, v) :: rest else p :: assocSet rest k v := by
  by_cases h : p.1 = k <;> simp [assocSet, h]

theorem assocDelete_nil {α : Type} (k : String) :
    assocDelete ([] : List (String × α)) k = [] :=
  rfl

theorem assocDelete_cons {α : Type} (p : String × α) (rest : List (String × α))
    (k : String) :
    assocDelete (p :: rest) k
      = if p.1 = k then assocDelete rest k else p :: assocDelete rest k := by
  by_cases h : p.1 = k <;> simp [assocDelete, List.filter_cons, h]

theorem assocGet_set_self {α : Type} (m : List (String × α)) (k : String) (v : α) :
    assocGet (assocSet m k v) k = some v := by
  induction m with
  | nil => rw [assocSet_nil, assocGet_cons, if_pos rfl]
  | cons p rest ih =>
    rw [assocSet_cons]
    by_cases h : p.1 = k
    · rw [if_pos h, assocGet_cons, if_pos rfl]
    · rw [if_neg h, assocGet_cons, if_neg h, ih]

theorem assocGet_set_ne {α : Type} (m : List (String × α)) (k j : String) (v : α)
    (h : j ≠ k) :
    assocGet (assocSet m k v) j = assocGet m j := by
  induction m with
  | nil => rw [assocSet_nil, assocGet_cons, if_neg (Ne.symm h), assocGet_nil]
  | cons p rest ih =>
    rw [assocSet_cons]
    by_cases hp : p.1 = k
    · rw [if_pos hp, assocGet_cons, assocGet_cons, if_neg (Ne.symm h)]
      rw [hp, if_neg (fun hkj => h hkj.symm)]
    · rw [if_neg hp, assocGet_cons, assocGet_cons, ih]

theorem assocGet_delete_self {α : Type} (m : List (String × α)) (k : String) :
    assocGet (assocDelete m k) k = none := by
  induction m with
  | nil => rfl
  | cons p rest ih =>
    rw [assocDelete_cons]
    by_cases hp : p.1 = k
    · rw [if_pos hp, ih]
    · rw [if_neg hp, assocGet_cons, if_neg hp, ih]

theorem assocGet_delete_ne {α : Type} (m : List (String × α)) (k j : String)
    (h : j ≠ k) :
    assocGet (assocDelete m k) j = assocGet m j := by
  induction m with
  | nil => rfl
  | cons p rest ih =>
    rw [assocDelete_cons, assocGet_cons]
    by_cases hp : p.1 = k
    · rw [if_pos hp, ih, if_neg (by rw [hp]; exact fun hkj => h hkj.symm)]
    · rw [if_neg hp, assocGet_cons, ih]

theorem assocGet_eq_none_of_not_mem {α : Type} (m : List (String × α)) (k : String)
    (h : k ∉ m.map Prod.fst) :
    assocGet m k = none := by
  induction m with
  | nil => rfl
  | cons p rest ih =>
    simp only [List.map_cons, List.mem_cons] at h
    push_neg at h
    rw [assocGet_cons, if_neg (fun hp => h.1 hp.symm), ih h.2]

theorem assocGet_isSome_of_mem {α : Type} (m : List (String × α)) (k : String)
    (h : k ∈ m.map Prod.fst) :
    (assocGet m k).isSome = true := by
  induction m with
  | nil => simp at h
  | cons p rest ih =>
    rw [assocGet_cons]
    by_cases hp : p.1 = k
    · rw [if_pos hp]
      rfl
    · simp only [List.map_cons, List.mem_cons] at h
      rw [if_neg hp]
      exact ih (h.resolve_left (fun hk => hp hk.symm))

theorem assocSet_keys {α : Type} (m : List (String × α)) (k : String) (v : α) :
    (assocSet m k v).map Prod.fst
      = if k ∈ m.map Prod.fst then m.map Prod.fst else m.map Prod.fst ++ [k] := by
  induction m with
  | nil => simp [assocSet_nil]
  | cons p rest ih =>
    rw [assocSet_cons]
    by_cases hp : p.1 = k
    · rw [if_pos hp]
      have : k ∈ (p :: rest).map Prod.fst := by simp [hp.symm]
      rw [if_pos this]
      simp [hp]
    · rw [if_neg hp, List.map_cons, List.map_cons, ih]
      by_cases hm : k ∈ rest.map Prod.fst
      · rw [if_pos hm, if_pos (by simp [hm])]
      · rw [if_neg hm, if_neg (by
          simp only [List.mem_cons]
          push_neg
          exact ⟨fun hk => hp hk.symm, hm⟩), List.cons_append]

theorem assocSet_keys_nodup {α : Type} (m : List (String × α)) (k : String) (v : α)
    (h : (m.map Prod.fst).Nodup) :
    ((assocSet m k v).map Prod.fst).Nodup := by
  rw [assocSet_keys]
  by_cases hm : k ∈ m.map Prod.fst
  · rwa [if_pos hm]
  · rw [if_neg hm, List.nodup_append]
    exact ⟨h, List.nodup_singleton k, by simpa using hm⟩

/-- Storing every entry of a key-nodup map into a collection: the stored
entries win, the rest of the collection is untouched. -/
theorem assocGet_foldl_set (es : DiagEntries) (coll : DiagnosticCollection)
    (k : String) (hnd : (es.map Prod.fst).Nodup) :
    assocGet (es.foldl (fun acc p => assocSet acc p.1 p.2) coll) k
      = (assocGet es k).elim (assocGet coll k) some := by
  induction es generalizing coll with
  | nil => rfl
  | cons p rest ih =>
    simp only [List.map_cons, List.nodup_cons] at hnd
    obtain ⟨hpk, hrest⟩ := hnd
    rw [List.foldl_cons, ih (assocSet coll p.1 p.2) hrest, assocGet_cons]
    by_cases hk : p.1 = k
    · have hnone : assocGet rest k = none :=
        assocGet_eq_none_of_not_mem rest k (by rw [← hk]; exact hpk)
      rw [hnone, if_pos hk]
      simp only [Option.elim]
      rw [← hk, assocGet_set_self]
    · rw [if_neg hk]
      cases hr : assocGet rest k with
      | none =>
        simp only [hr, Option.elim]
        exact assocGet_set_ne coll p.1 k p.2 (fun hj => hk hj.symm)
      | some v => simp only [hr, Option.elim]

/-! ## Properties of the `applyDiagnostics` loop -/

/-- The preview-diagnostics accumulator of the loop is exactly one mapped
diagnostic per input diagnostic, in order. -/
theorem diagFold_fst (win32 : Bool) (t : Uri) (c : Option Uri)
    (ds : List RenderDiagnostic) :
    ∀ acc : List PreviewDiagnostic × DiagEntries,
      (ds.foldl (diagStep win32 t c) acc).1 = acc.1 ++ ds.map (previewOf win32 t c) := by
  induction ds with
  | nil => intro acc; simp
  | cons d rest ih =>
    intro acc
    rw [List.foldl_cons, ih, List.map_cons]
    show (acc.1 ++ [previewOf win32 t c d]) ++ rest.map (previewOf win32 t c) = _
    rw [List.append_assoc, List.singleton_append]

/-- The entries accumulator keeps key-nodup through the loop. -/
theorem diagFold_keys_nodup (win32 : Bool) (t : Uri) (c : Option Uri)
    (ds : List RenderDiagnostic) :
    ∀ acc : List PreviewDiagnostic × DiagEntries, ((acc.2.map Prod.fst)).Nodup →
      (((ds.foldl (diagStep win32 t c) acc).2.map Prod.fst)).Nodup := by
  induction ds with
  | nil => intro acc h; simpa using h
  | cons d rest ih =>
    intro acc h
    rw [List.foldl_cons]
    exact ih _ (assocSet_keys_nodup _ _ _ h)

/-- An entries key once present stays present through the loop. -/
theorem diagFold_isSome_mono (win32 : Bool) (t : Uri) (c : Option Uri)
    (ds : List RenderDiagnostic) :
    ∀ (acc : List PreviewDiagnostic × DiagEntries) (k : String),
      (assocGet acc.2 k).isSome = true →
      (assocGet ((ds.foldl (diagStep win32 t c) acc)).2 k).isSome = true := by
  induction ds with
  | nil => intro acc k h; simpa using h
  | cons d rest ih =>
    intro acc k h
    rw [List.foldl_cons]
    apply ih
    show (assocGet (assocSet acc.2 (resolveKey win32 t c d) _) k).isSome = true
    by_cases hk : k = resolveKey win32 t c d
    · rw [hk, assocGet_set_self]
      rfl
    · rw [assocGet_set_ne _ _ _ _ hk]
      exact h

/-- Every resolved key of the input list is present in the final entries. -/
theorem diagFold_isSome_of_mem (win32 : Bool) (t : Uri) (c : Option Uri)
    (ds : List RenderDiagnostic) :
    ∀ (acc : List PreviewDiagnostic × DiagEntries) (k : String),
      k ∈ ds.map (resolveKey win32 t c) →
      (assocGet ((ds.foldl (diagStep win32 t c) acc)).2 k).isSome = true := by
  induction ds with
  | nil => intro acc k h; simp at h
  | cons d rest ih =>
    intro acc k h
    rw [List.map_cons, List.mem_cons] at h
    rw [List.foldl_cons]
    rcases h with h | h
    · apply diagFold_isSome_mono
      show (assocGet (assocSet acc.2 (resolveKey win32 t c d) _) k).isSome = true
      rw [h, assocGet_set_self]
      rfl
    · exact ih _ k h

/-- The mapped preview diagnostics of `applyDiagnostics`: exactly one per
input diagnostic, in order. -/
theorem applyDiagnostics_fst (win32 : Bool) (t : Uri) (c : Option Uri)
    (ds : List RenderDiagnostic) (coll : DiagnosticCollection) :
    (applyDiagnostics win32 t c ds coll).1 = ds.map (previewOf win32 t c) := by
  unfold applyDiagnostics
  have h := diagFold_fst win32 t c ds ([], [])
  split
  · simpa using h
  · simpa using h

/-- The document keys a mapping call touches: the template document, the
context document when bound, and every resolved target key of the input. -/
def touchedKeys (win32 : Bool) (t : Uri) (c : Option Uri)
    (ds : List RenderDiagnostic) : List String :=
  t.uriString :: (c.elim [] (fun cu => [cu.uriString]) ++ ds.map (resolveKey win32 t c))

/-- The collection produced by `applyDiagnostics` on a non-empty input:
store every grouped entry, then delete the template/context keys that
received no diagnostics. -/
theorem applyDiagnostics_snd_cons (win32 : Bool) (t : Uri) (c : Option Uri)
    (d : RenderDiagnostic) (rest : List RenderDiagnostic)
    (coll : DiagnosticCollection) :
    (applyDiagnostics win32 t c (d :: rest) coll).2
      = c.elim
          (if (assocGet (entriesOf win32 t c (d :: rest)) t.uriString).isSome then
            (entriesOf win32 t c (d :: rest)).foldl
              (fun acc p => assocSet acc p.1 p.2) coll
          else assocDelete ((entriesOf win32 t c (d :: rest)).foldl
              (fun acc p => assocSet acc p.1 p.2) coll) t.uriString)
          (fun cu =>
            if (assocGet (entriesOf win32 t c (d :: rest)) cu.uriString).isSome then
              (if (assocGet (entriesOf win32 t c (d :: rest)) t.uriString).isSome then
                (entriesOf win32 t c (d :: rest)).foldl
                  (fun acc p => assocSet acc p.1 p.2) coll
              else assocDelete ((entriesOf win32 t c (d :: rest)).foldl
                  (fun acc p => assocSet acc p.1 p.2) coll) t.uriString)
            else assocDelete
              (if (assocGet (entriesOf win32 t c (d :: rest)) t.uriString).isSome then
                (entriesOf win32 t c (d :: rest)).foldl
                  (fun acc p => assocSet acc p.1 p.2) coll
              else assocDelete ((entriesOf win32 t c (d :: rest)).foldl
                  (fun acc p => assocSet acc p.1 p.2) coll) t.uriString)
              cu.uriString) := by
  unfold applyDiagnostics entriesOf
  rw [if_neg (by simp)]
  cases c <;> rfl

/-- The collection produced by `applyDiagnostics` on an empty input: the
template and context entries are deleted. -/
theorem applyDiagnostics_snd_nil (win32 : Bool) (t : Uri) (c : Option Uri)
    (coll : DiagnosticCollection) :
    (applyDiagnostics win32 t c [] coll).2
      = c.elim (assocDelete coll t.uriString)
          (fun cu => assocDelete (assocDelete coll t.uriString) cu.uriString) := by
  unfold applyDiagnostics
  rw [if_pos List.isEmpty_nil]
  cases c <;> rfl

/-- Characterization of the diagnostics index after `applyDiagnostics` at
every touched key: an empty input clears it, a non-empty input makes it
exactly the grouped entries — in both cases independent of the prior
collection contents. -/
theorem applyDiagnostics_get_touched (win32 : Bool) (t : Uri) (c : Option Uri)
    (ds : List RenderDiagnostic) (coll : DiagnosticCollection) (k : String)
    (hk : k ∈ touchedKeys win32 t c ds) :
    assocGet (applyDiagnostics win32 t c ds coll).2 k
      = if ds.isEmpty then none else assocGet (entriesOf win32 t c ds) k := by
  simp only [touchedKeys, List.mem_cons, List.mem_append] at hk
  cases ds with
  | nil =>
    rw [if_pos List.isEmpty_nil, applyDiagnostics_snd_nil]
    cases c with
    | none =>
      simp only [Option.elim]
      have hkt : k = t.uriString := by
        rcases hk with hk | hk | hk
        · exact hk
        · simp at hk
        · simp at hk
      rw [hkt]
      exact assocGet_delete_self coll t.uriString
    | some cu =>
      simp only [Option.elim]
      rcases hk with hkt | hkc | hkr
      · by_cases he : k = cu.uriString
        · rw [he]
          exact assocGet_delete_self _ _
        · rw [assocGet_delete_ne _ _ _ he, hkt]
          exact assocGet_delete_self _ _
      · simp only [Option.elim, List.mem_singleton] at hkc
        rw [hkc]
        exact assocGet_delete_self _ _
      · simp at hkr
  | cons d rest =>
    rw [if_neg (by simp), applyDiagnostics_snd_cons]
    cases c with
    | none =>
      simp only [Option.elim]
      have hAfter : assocGet ((entriesOf win32 t none (d :: rest)).foldl
          (fun acc p => assocSet acc p.1 p.2) coll) k
          = (assocGet (entriesOf win32 t none (d :: rest)) k).elim (assocGet coll k) some :=
        assocGet_foldl_set _ coll k
          (diagFold_keys_nodup win32 t none (d :: rest) ([], []) (by simp))
      cases hv : assocGet (entriesOf win32 t none (d :: rest)) k with
      | some v =>
        have hset : assocGet ((entriesOf win32 t none (d :: rest)).foldl
            (fun acc p => assocSet acc p.1 p.2) coll) k = some v := by
          rw [hAfter, hv]
          rfl
        by_cases ht : (assocGet (entriesOf win32 t none (d :: rest)) t.uriString).isSome
            = true
        · rw [if_pos ht]
          exact hset
        · have hkt : k ≠ t.uriString := fun he => by
            rw [he] at hv
            rw [hv] at ht
            simp at ht
          rw [if_neg ht, assocGet_delete_ne _ _ _ hkt]
          exact hset
      | none =>
        have hkt : k = t.uriString := by
          rcases hk with hkt | hkc | hkr
          · exact hkt
          · simp at hkc
          · exact absurd (diagFold_isSome_of_mem win32 t none (d :: rest) ([], []) k hkr)
              (by
                show ¬ (assocGet (entriesOf win32 t none (d :: rest)) k).isSome = true
                rw [hv]
                simp)
        rw [if_neg (by rw [← hkt, hv]; simp)]
        rw [hkt]
        exact assocGet_delete_self _ _
    | some cu =>
      simp only [Option.elim]
      have hAfter : assocGet ((entriesOf win32 t (some cu) (d :: rest)).foldl
          (fun acc p => assocSet acc p.1 p.2) coll) k
          = (assocGet (entriesOf win32 t (some cu) (d :: rest)) k).elim
              (assocGet coll k) some :=
        assocGet_foldl_set _ coll k
          (diagFold_keys_nodup win32 t (some cu) (d :: rest) ([], []) (by simp))
      cases hv : assocGet (entriesOf win32 t (some cu) (d :: rest)) k with
      | some v =>
        have hset : assocGet ((entriesOf win32 t (some cu) (d :: rest)).foldl
            (fun acc p => assocSet acc p.1 p.2) coll) k = some v := by
          rw [hAfter, hv]
          rfl
        have hstage : assocGet
            (if (assocGet (entriesOf win32 t (some cu) (d :: rest)) t.uriString).isSome then
              (entriesOf win32 t (some cu) (d :: rest)).foldl
                (fun acc p => assocSet acc p.1 p.2) coll
            else assocDelete ((entriesOf win32 t (some cu) (d :: rest)).foldl
                (fun acc p => assocSet acc p.1 p.2) coll) t.uriString) k = some v := by
          by_cases ht : (assocGet (entriesOf win32 t (some cu) (d :: rest))
              t.uriString).isSome = true
          · rw [if_pos ht]
            exact hset
          · have hkt : k ≠ t.uriString := fun he => by
              rw [he] at hv
              rw [hv] at ht
              simp at ht
            rw [if_neg ht, assocGet_delete_ne _ _ _ hkt]
            exact hset
        by_cases hcu : (assocGet (entriesOf win32 t (some cu) (d :: rest))
            cu.uriString).isSome = true
        · rw [if_pos hcu]
          exact hstage
        · have hkcu : k ≠ cu.uriString := fun he => by
            rw [he] at hv
            rw [hv] at hcu
            simp at hcu
          rw [if_neg hcu, assocGet_delete_ne _ _ _ hkcu]
          exact hstage
      | none =>
        have hktc : k = t.uriString ∨ k = cu.uriString := by
          rcases hk with hkt | hkc | hkr
          · exact Or.inl hkt
          · simp only [Option.elim, List.mem_singleton] at hkc
            exact Or.inr hkc
          · exact absurd
              (diagFold_isSome_of_mem win32 t (some cu) (d :: rest) ([], []) k hkr)
              (by
                show ¬ (assocGet (entriesOf win32 t (some cu) (d :: rest)) k).isSome = true
                rw [hv]
                simp)
        by_cases hkc : k = cu.uriString
        · rw [if_neg (by rw [← hkc, hv]; simp)]
          rw [hkc]
          exact assocGet_delete_self _ _
        · have hkt : k = t.uriString := hktc.resolve_right hkc
          have hstage : assocGet
              (if (assocGet (entriesOf win32 t (some cu) (d :: rest)) t.uriString).isSome then
                (entriesOf win32 t (some cu) (d :: rest)).foldl
                  (fun acc p => assocSet acc p.1 p.2) coll
              else assocDelete ((entriesOf win32 t (some cu) (d :: rest)).foldl
                  (fun acc p => assocSet acc p.1 p.2) coll) t.uriString) k = none := by
            rw [if_neg (by rw [← hkt, hv]; simp)]
            rw [hkt]
            exact assocGet_delete_self _ _
          by_cases hcu : (assocGet (entriesOf win32 t (some cu) (d :: rest))
              cu.uriString).isSome = true
          · rw [if_pos hcu]
            exact hstage
          · rw [if_neg hcu, assocGet_delete_ne _ _ _ hkc]
            exact hstage

/-- Claim C4 counterexample: a diagnostic whose file hint resolves to
neither the template nor the context document is tagged `source = context`,
not `template` as the claim states (the code tests only whether the resolved
target is the template document). -/
theorem claim_C4_counterexample :
    ((applyDiagnostics false demoTemplateUri (some demoContextUri)
        [{ message := "boom", severity := .error, file := some "/other.txt" }] []).1.map
      (fun p => p.source)) = [DiagSource.context]
    ∧ isSameUri false
        (resolveTargetUri false demoTemplateUri (some demoContextUri) (some "/other.txt"))
        demoContextUri = false
    ∧ isSameUri false
        (resolveTargetUri false demoTemplateUri (some demoContextUri) (some "/other.txt"))
        demoTemplateUri = false :=
  ⟨by decide, by decide, by decide⟩

/-- Claim C4 as amended: every RenderDiagnostic produces exactly one
PreviewDiagnostic (in order), and `source` is `context` exactly when the
resolved target URI is not the template document's URI — so `template` when
the target is the template document, and `context` in every other case,
including a file hint resolving to neither document. -/
theorem claim_C4_amended (win32 : Bool) (t : Uri) (c : Option Uri)
    (ds : List RenderDiagnostic) (coll : DiagnosticCollection) :
    (applyDiagnostics win32 t c ds coll).1 = ds.map (previewOf win32 t c)
    ∧ ∀ d : RenderDiagnostic,
        ((previewOf win32 t c d).source = DiagSource.context
          ↔ ¬ isSameUri win32 (resolveTargetUri win32 t c d.file) t = true) := by
  refine ⟨applyDiagnostics_fst win32 t c ds coll, ?_⟩
  intro d
  unfold previewOf
  by_cases h : isSameUri win32 (resolveTargetUri win32 t c d.file) t = true
  · simp [h]
  · simp [h]

/-- A stale collection entry as it might exist before a mapping call. -/
def demoOldCollection : DiagnosticCollection :=
  [("file:///t.tmpl", [⟨⟨0, 0, 0, maxSafeInteger⟩, "old error", .error⟩]),
    ("file:///c.json", [⟨⟨0, 0, 0, maxSafeInteger⟩, "old context error", .warning⟩])]

/-- Claim C5: a mapping call with an empty diagnostics list removes the
recorded diagnostics of the template document and of the context document
when bound; and at every key a mapping call touches, the resulting recorded
diagnostics are independent of what the collection previously held — a full
replacement, never a merge. -/
theorem claim_C5_replace_and_clear (win32 : Bool) (t : Uri) (c : Option Uri)
    (ds : List RenderDiagnostic) (coll coll2 : DiagnosticCollection) (k : String)
    (hk : k ∈ touchedKeys win32 t c ds) :
    assocGet (applyDiagnostics win32 t c [] coll).2 t.uriString = none
    ∧ (∀ cu, c = some cu →
        assocGet (applyDiagnostics win32 t c [] coll).2 cu.uriString = none)
    ∧ assocGet (applyDiagnostics win32 t c ds coll).2 k
        = assocGet (applyDiagnostics win32 t c ds coll2).2 k := by
  refine ⟨?_, ?_, ?_⟩
  · have h := applyDiagnostics_get_touched win32 t c [] coll t.uriString
      (by simp [touchedKeys])
    simpa using h
  · intro cu hcu
    subst hcu
    have h := applyDiagnostics_get_touched win32 t (some cu) [] coll cu.uriString
      (by simp [touchedKeys, Option.elim])
    simpa using h
  · rw [applyDiagnostics_get_touched win32 t c ds coll k hk,
      applyDiagnostics_get_touched win32 t c ds coll2 k hk]

/-- Witness for C5: clearing a previously recorded template and context
entry with an empty mapping call, independent of the prior collection. -/
theorem claim_C5_replace_and_clear_witness :
    assocGet (applyDiagnostics false demoTemplateUri (some demoContextUri) []
        demoOldCollection).2 demoTemplateUri.uriString = none
    ∧ (∀ cu, (some demoContextUri) = some cu →
        assocGet (applyDiagnostics false demoTemplateUri (some demoContextUri) []
          demoOldCollection).2 cu.uriString = none)
    ∧ assocGet (applyDiagnostics false demoTemplateUri (some demoContextUri) []
          demoOldCollection).2 "file:///t.tmpl"
        = assocGet (applyDiagnostics false demoTemplateUri (some demoContextUri) []
            []).2 "file:///t.tmpl" :=
  claim_C5_replace_and_clear false demoTemplateUri (some demoContextUri) []
    demoOldCollection [] "file:///t.tmpl" (by decide)

end GoTemplateStudio
